import Mathlib

/-!
Verification of the gsutil `test` command (gslib/commands/test.py).

The development shallowly embeds the pure logic of the command:
  * the suite tree produced by the loader of the execution engine,
  * the name resolver (`RunCommand`, lines 210-218),
  * the stack-based suite flattener used by list mode (lines 231-243),
  * the progress line of `CustomTestResult.startTest` (lines 137-146),
  * the orchestration of `TestCommand.RunCommand` (lines 187-259).

External collaborators (the unittest loader and runner, the catalog
provider `GetTestNames`, the ambient logging level) are parameters of the
embedding; the mutable module flag `gslib.tests.util.RUN_INTEGRATION_TESTS`
and the process-wide logging state are threaded explicitly as a
`GlobalState` value.
-/

namespace GsutilTest

/-- A built unittest suite: a `TestSuite` instance is a composite holding an
ordered list of children, each either a nested suite or a single `TestCase`
leaf addressed by its dotted identifier (`test.id()`). -/
inductive TestSuite where
  | leaf (id : String)
  | composite (children : List TestSuite)
deriving Repr

mutual

/-- Size of a suite tree (used as fuel bound for the flattening loop). -/
def suiteSize : TestSuite → Nat
  | .leaf _ => 1
  | .composite cs => 1 + suitesSize cs

/-- Total size of a list of suite trees. -/
def suitesSize : List TestSuite → Nat
  | [] => 0
  | t :: ts => suiteSize t + suitesSize ts

end

/-- Python `s.lstrip(chars)`: removes from the front of `s` every character
that occurs anywhere in `chars` (a character-set strip, not a substring
strip). -/
def pyLstrip (chars : String) (s : String) : String :=
  String.mk (s.toList.dropWhile (fun c => chars.toList.contains c))

/-- Line 240: the lstrip of `test.id()` with the characters of
`gslib.tests.test_`. -/
def stripTestName (id : String) : String :=
  pyLstrip "gslib.tests.test_" id

/-- The children lists of the `unittest.TestSuite` children of a node, in
iteration order (the `isinstance(test, unittest.TestSuite)` branch of the
flattening loop). -/
def compositeChildren : List TestSuite → List (List TestSuite)
  | [] => []
  | .composite cs :: ts => cs :: compositeChildren ts
  | .leaf _ :: ts => compositeChildren ts

/-- The stripped identifiers of the `TestCase` children of a node, in
iteration order (the `else` branch of the flattening loop, line 240). -/
def leafNames : List TestSuite → List String
  | [] => []
  | .leaf id :: ts => stripTestName id :: leafNames ts
  | .composite _ :: ts => leafNames ts

/-- The `while suites:` loop of lines 234-240.  A stack entry is the
children list of a pushed `unittest.TestSuite`; the top of the stack is the list
head (the Python code appends and pops at the end of `suites`, so pushed
composites are entered last-pushed-first, which the `.reverse` reproduces).
The fuel argument only bounds the iteration count; `flattenSuite` supplies
enough fuel for the loop to run to completion. -/
def flattenLoop : Nat → List (List TestSuite) → List String → List String
  | 0, _, acc => acc
  | _ + 1, [], acc => acc
  | fuel + 1, cs :: rest, acc =>
      flattenLoop fuel ((compositeChildren cs).reverse ++ rest) (acc ++ leafNames cs)

/-- Lines 231-240: collect the stripped leaf identifiers of a built suite.
The loader always returns a composite at the root; on a bare leaf the
Python loop would fail iterating a `TestCase`, so that case yields `[]`. -/
def flattenSuite : TestSuite → List String
  | .leaf _ => []
  | .composite cs => flattenLoop (suitesSize cs + 2) [cs] []

/-- Lexicographic comparison of character lists by code point, the order
Python uses to compare strings. -/
def charListLE : List Char → List Char → Bool
  | [], _ => true
  | _ :: _, [] => false
  | a :: as, b :: bs =>
    if a.toNat < b.toNat then true
    else if b.toNat < a.toNat then false
    else charListLE as bs

/-- String comparison, as the Python `<=` on strings. -/
def strLE (a b : String) : Bool :=
  charListLE a.toList b.toList

/-- Python `sorted` on strings: stable ascending lexicographic sort. -/
def sortStrings (l : List String) : List String :=
  List.insertionSort (fun a b => strLE a b = true) l

/-- Python string split on a dot: splits on every dot, keeping empty
pieces. -/
def splitOnDot : List Char → List (List Char)
  | [] => [[]]
  | c :: rest =>
    let r := splitOnDot rest
    if c = '.' then [] :: r
    else
      match r with
      | [] => [[c]]
      | g :: gs => (c :: g) :: gs

/-- The Python split of a name on dots, as a list of strings. -/
def pySplitDot (s : String) : List String :=
  (splitOnDot s.toList).map String.mk

/-- The namespace marker prepended by the resolver (lines 214 and 218). -/
def testNameMarker : String := "gslib.tests.test_"

/-- Lines 213-216: resolve one positional argument against the catalog. -/
def resolveName (test_names : List String) (name : String) : String :=
  if name ∈ test_names ∨ (pySplitDot name).headD "" ∈ test_names then
    testNameMarker ++ name
  else
    name

/-- Lines 210-218: the full list of identifiers handed to the loader. -/
def commandsToTest (test_names : List String) (args : List String) : List String :=
  if args.isEmpty then
    test_names.map (fun n => testNameMarker ++ n)
  else
    args.map (resolveName test_names)

/-- Lines 205-206 and 241-242: the two lines printed by list mode.  The
Python 2 print statement with a leading space item emits two spaces and
then the sorted names separated by newline plus a two-space indent. -/
def listingOutput (names : List String) : List String :=
  ["Found " ++ toString names.length ++ " test names:",
   "  " ++ String.intercalate "\n  " (sortStrings names)]

/-- Outcome counters of `runner.run(suite)` (a `unittest.TestResult`). -/
structure RunResult where
  failures : Nat
  errors : Nat
  skipped : Nat
deriving Repr, DecidableEq

/-- Modelled from the spec: the result predicate `wasSuccessful` of the
execution engine (the unittest library is an external collaborator, not
part of this repository) — true exactly when zero failures and zero errors
were recorded. -/
def wasSuccessful (r : RunResult) : Bool :=
  r.failures == 0 && r.errors == 0

/-- Process-wide mutable state touched by the command: the module flag
`gslib.tests.util.RUN_INTEGRATION_TESTS` (line 197) and whether
`logging.disable(logging.ERROR)` has been called (line 249). -/
structure GlobalState where
  runIntegrationTests : Bool
  loggingDisabledError : Bool
deriving Repr, DecidableEq

/-- How `RunCommand` terminates. -/
inductive CmdResult where
  | exit (code : Nat)
  | commandException (msg : String)
  | unboundLocalError (var : String)
deriving Repr, DecidableEq

/-- Result of a full `RunCommand` call: termination mode, printed stdout
lines, final process-wide state, and whether `runner.run` was reached. -/
structure CommandOutcome where
  result : CmdResult
  output : List String
  globals : GlobalState
  ranSuite : Bool
deriving Repr, DecidableEq

/-- Lines 194-201: the flag loop.  `-u` writes the module-level flag,
`-f` and `-l` set the local booleans; returns (globals, failfast, list). -/
def processFlags : GlobalState → Bool → Bool → List String → GlobalState × Bool × Bool
  | g, failfast, list_tests, [] => (g, failfast, list_tests)
  | g, failfast, list_tests, o :: rest =>
    if o = "-u" then
      processFlags { g with runIntegrationTests := false } failfast list_tests rest
    else if o = "-f" then
      processFlags g true list_tests rest
    else if o = "-l" then
      processFlags g failfast true rest
    else
      processFlags g failfast list_tests rest

/-- The external collaborators of `TestCommand.RunCommand`. -/
structure TestEnv where
  /-- Whether the unittest module could be imported (lines 45-53). -/
  unittestAvailable : Bool
  /-- Result of `GetTestNames()`: the catalog of short module names (line 203). -/
  testNames : List String
  /-- The engine loader `loadTestsFromNames`: either a built suite or the message of
  the `ImportError`/`AttributeError` it raised (lines 226-228). -/
  loader : List String → Except String TestSuite
  /-- The engine run of a suite given failfast and verbosity (lines 254-256). -/
  runner : TestSuite → Bool → Nat → RunResult
  /-- Whether the effective logging level is at most INFO (line 245). -/
  logLevelAtMostInfo : Bool

/-- Lines 187-259: `TestCommand.RunCommand`.  `suite` is modelled as an
`Option` because the Python local is only assigned inside
`if commands_to_test:`; a `none` suite used later is the Python
`UnboundLocalError`. -/
def RunCommand (env : TestEnv) (g0 : GlobalState)
    (sub_opts : List String) (args : List String) : CommandOutcome :=
  if !env.unittestAvailable then
    { result := .commandException
        "On Python 2.6, the unittest2 module is required to run the gsutil tests."
      output := [], globals := g0, ranSuite := false }
  else
    match processFlags g0 false false sub_opts with
    | (g1, failfast, list_tests) =>
      let test_names := sortStrings env.testNames
      if list_tests && args.isEmpty then
        { result := .exit 0, output := listingOutput test_names
          globals := g1, ranSuite := false }
      else
        let commands_to_test := commandsToTest test_names args
        let suiteRes : Except String (Option TestSuite) :=
          if !commands_to_test.isEmpty then
            match env.loader commands_to_test with
            | .ok s => .ok (some s)
            | .error e => .error e
          else .ok none
        match suiteRes with
        | .error e =>
          { result := .commandException ("Invalid test argument name: " ++ e)
            output := [], globals := g1, ranSuite := false }
        | .ok osuite =>
          if list_tests then
            match osuite with
            | some s =>
              { result := .exit 0, output := listingOutput (flattenSuite s)
                globals := g1, ranSuite := false }
            | none =>
              { result := .unboundLocalError "suite", output := []
                globals := g1, ranSuite := false }
          else
            let vg : Nat × GlobalState :=
              if env.logLevelAtMostInfo then (1, g1)
              else (2, { g1 with loggingDisabledError := true })
            match osuite with
            | some s =>
              let ret := env.runner s failfast vg.1
              { result := .exit (if wasSuccessful ret then 0 else 1)
                output := [], globals := vg.2, ranSuite := true }
            | none =>
              { result := .unboundLocalError "suite", output := []
                globals := vg.2, ranSuite := false }

/-- Line 140: the join with dots of the last two dot-separated components
of `test.id()`. -/
def lastTwoComponents (id : String) : String :=
  let parts := pySplitDot id
  String.intercalate "." (parts.drop (parts.length - 2))

/-- Lines 141-143: the formatted progress message before truncation.  The
leading carriage return is part of the formatted string, as in the source. -/
def composedStatus (testsRun total_tests errors failures skipped : Nat)
    (testId : String) : String :=
  "\r" ++ toString testsRun ++ "/" ++ toString total_tests
    ++ " finished - E[" ++ toString errors ++ "] F[" ++ toString failures
    ++ "] s[" ++ toString skipped ++ "] - " ++ lastTwoComponents testId

/-- Lines 144-145: `message[:73]` followed by `message.ljust(73)`. -/
def ljustTrunc73 (s : String) : String :=
  let t := String.mk (s.toList.take 73)
  t ++ String.mk (List.replicate (73 - t.length) ' ')

/-- Lines 140-145 of `CustomTestResult.startTest`: the status string whose
width the progress-line invariant is about (the stream then receives it
followed by the fixed dash separator, line 146). -/
def statusMessage (testsRun total_tests errors failures skipped : Nat)
    (testId : String) : String :=
  ljustTrunc73 (composedStatus testsRun total_tests errors failures skipped testId)

/-- Whether `pat` occurs as a contiguous run inside the character list. -/
def hasRun (pat : List Char) : List Char → Bool
  | [] => pat.isEmpty
  | c :: rest => pat.isPrefixOf (c :: rest) || hasRun pat rest

/-- Substring test used to state the progress-line claims. -/
def strContains (s pat : String) : Bool :=
  hasRun pat.toList s.toList

/-- A small suite with a duplicated leaf, as the loader can produce when
the same test is named twice. -/
def demoSuite : TestSuite :=
  .composite [.leaf "gslib.tests.test_ls.TestLs.test_x",
              .leaf "gslib.tests.test_ls.TestLs.test_x"]

/-- Concrete environment: catalog `{mv, cp}`, loader always succeeds with
`demoSuite`, runner reports one failure and five skips. -/
def demoEnv : TestEnv where
  unittestAvailable := true
  testNames := ["mv", "cp"]
  loader := fun _ => .ok demoSuite
  runner := fun _ _ _ => ⟨1, 0, 5⟩
  logLevelAtMostInfo := true

/-- Like `demoEnv` but the runner reports no failures and no errors, only
three skips. -/
def demoEnvPass : TestEnv :=
  { demoEnv with runner := fun _ _ _ => ⟨0, 0, 3⟩ }

/-- Like `demoEnv` but the loader raises an import error. -/
def demoEnvFail : TestEnv :=
  { demoEnv with loader := fun _ => .error "No module named test_bogus" }

/-- Like `demoEnv` but with an empty catalog. -/
def demoEnvEmpty : TestEnv :=
  { demoEnv with testNames := [] }

/-! ### Helper lemmas about the embedded order and sort -/

theorem charListLE_total : ∀ a b : List Char,
    charListLE a b = true ∨ charListLE b a = true := by
  intro a
  induction a with
  | nil => intro b; left; cases b <;> rfl
  | cons c cs ih =>
    intro b
    cases b with
    | nil => right; rfl
    | cons d ds =>
      by_cases h1 : c.toNat < d.toNat
      · left; simp [charListLE, h1]
      · by_cases h2 : d.toNat < c.toNat
        · right; simp [charListLE, h2, h1]
        · rcases ih ds with ih1 | ih1
          · left; simp [charListLE, h1, h2, ih1]
          · right; simp [charListLE, h1, h2, ih1]

theorem charListLE_trans : ∀ a b c : List Char,
    charListLE a b = true → charListLE b c = true → charListLE a c = true := by
  intro a
  induction a with
  | nil => intro b c _ _; cases c <;> rfl
  | cons x xs ih =>
    intro b c hab hbc
    cases b with
    | nil => simp [charListLE] at hab
    | cons y ys =>
      cases c with
      | nil => simp [charListLE] at hbc
      | cons z zs =>
        simp only [charListLE] at hab hbc ⊢
        split_ifs at hab hbc ⊢ <;>
          first
            | rfl
            | omega
            | (exact ih ys zs hab hbc)

theorem strLE_total (a b : String) : strLE a b = true ∨ strLE b a = true :=
  charListLE_total a.toList b.toList

theorem strLE_trans (a b c : String) :
    strLE a b = true → strLE b c = true → strLE a c = true :=
  charListLE_trans a.toList b.toList c.toList

instance : IsTotal String (fun a b => strLE a b = true) := ⟨strLE_total⟩

instance : IsTrans String (fun a b => strLE a b = true) := ⟨strLE_trans⟩

theorem sortStrings_sorted (l : List String) :
    List.Sorted (fun a b => strLE a b = true) (sortStrings l) :=
  List.sorted_insertionSort _ l

theorem sortStrings_perm (l : List String) : List.Perm (sortStrings l) l :=
  List.perm_insertionSort _ l

theorem sortStrings_length (l : List String) :
    (sortStrings l).length = l.length :=
  (sortStrings_perm l).length_eq

theorem sortStrings_idem (l : List String) :
    sortStrings (sortStrings l) = sortStrings l :=
  List.Sorted.insertionSort_eq (sortStrings_sorted l)

theorem strLength_mk (l : List Char) : (String.mk l).length = l.length := rfl

theorem strLength_append (a b : String) :
    (a ++ b).length = a.length + b.length := by
  cases a with
  | mk da =>
    cases b with
    | mk db => simp [String.length, String.append]

theorem ljustTrunc73_length (s : String) : (ljustTrunc73 s).length = 73 := by
  unfold ljustTrunc73
  rw [strLength_append, strLength_mk, strLength_mk, List.length_replicate,
    List.length_take]
  have h : min 73 s.toList.length ≤ 73 := Nat.min_le_left _ _
  omega

theorem processFlags_runIntegrationTests (g : GlobalState) (ff lt : Bool)
    (opts : List String) :
    (processFlags g ff lt opts).1.runIntegrationTests =
      if "-u" ∈ opts then false else g.runIntegrationTests := by
  induction opts generalizing g ff lt with
  | nil => simp [processFlags]
  | cons o rest ih =>
    by_cases hu : o = "-u"
    · subst hu
      simp [processFlags, ih]
    · by_cases hf : o = "-f"
      · subst hf
        simp [processFlags, ih, Ne.symm hu]
      · by_cases hl : o = "-l"
        · subst hl
          simp [processFlags, ih, Ne.symm hu]
        · have hu2 : "-u" ≠ o := fun h => hu h.symm
          simp [processFlags, hu, hf, hl, ih, hu2]

theorem commandsToTest_cons_isEmpty (tn : List String) (a : String)
    (as : List String) :
    (commandsToTest tn (a :: as)).isEmpty = false := by
  simp [commandsToTest]

theorem runCommand_globals_runIntegrationTests (env : TestEnv)
    (g0 : GlobalState) (opts args : List String)
    (henv : env.unittestAvailable = true) :
    (RunCommand env g0 opts args).globals.runIntegrationTests =
      (processFlags g0 false false opts).1.runIntegrationTests := by
  unfold RunCommand
  rw [henv]
  rcases hpf : processFlags g0 false false opts with ⟨g1, flags⟩
  rcases flags with ⟨ff, lt⟩
  simp only [hpf, Bool.not_true, Bool.false_eq_true, if_false]
  repeat' split
  all_goals rfl

/-! ### Claim theorems -/

/-- C2: for every catalog and every dotted argument whose whole string or
head segment is a catalog entry, the resolver returns the original argument
with `gslib.tests.test_` concatenated in front of the whole string. -/
theorem resolveName_qualifies_whole_argument (C : List String) (name : String)
    (h : name ∈ C ∨ (pySplitDot name).headD "" ∈ C) :
    resolveName C name = "gslib.tests.test_" ++ name := by
  unfold resolveName
  rw [if_pos h]
  rfl

/-- Witness for C2: `cp.TestCp.test_streaming` with `cp` in the catalog
resolves to `gslib.tests.test_cp.TestCp.test_streaming`. -/
theorem resolveName_qualifies_whole_argument_witness :
    ("cp.TestCp.test_streaming" ∈ ["cp", "mv"] ∨
      (pySplitDot "cp.TestCp.test_streaming").headD "" ∈ ["cp", "mv"]) ∧
    resolveName ["cp", "mv"] "cp.TestCp.test_streaming" =
      "gslib.tests.test_cp.TestCp.test_streaming" :=
  ⟨by decide,
   resolveName_qualifies_whole_argument ["cp", "mv"] "cp.TestCp.test_streaming"
     (by decide)⟩

/-- C8: an argument that is not in the catalog and whose first dot-separated
segment is not in the catalog passes through the resolver unchanged. -/
theorem resolveName_passthrough (C : List String) (name : String)
    (h1 : name ∉ C) (h2 : (pySplitDot name).headD "" ∉ C) :
    resolveName C name = name := by
  unfold resolveName
  rw [if_neg]
  rintro (h | h)
  · exact h1 h
  · exact h2 h

/-- Witness for C8: an unknown dotted name is passed through unchanged. -/
theorem resolveName_passthrough_witness :
    "other.Thing.test_x" ∉ ["cp", "mv"] ∧
    (pySplitDot "other.Thing.test_x").headD "" ∉ ["cp", "mv"] ∧
    resolveName ["cp", "mv"] "other.Thing.test_x" = "other.Thing.test_x" :=
  ⟨by decide, by decide,
   resolveName_passthrough ["cp", "mv"] "other.Thing.test_x" (by decide)
     (by decide)⟩

/-- C7: with zero positional arguments, resolution yields one fully
qualified identifier per catalog entry, `gslib.tests.test_` ++ name in
sorted catalog order, and exactly `|C|` of them. -/
theorem commandsToTest_full_catalog (raw : List String) :
    commandsToTest (sortStrings raw) [] =
      (sortStrings raw).map (fun n => "gslib.tests.test_" ++ n) ∧
    (commandsToTest (sortStrings raw) []).length = raw.length := by
  constructor
  · rfl
  · simp [commandsToTest, sortStrings_length]

/-- C5: the status string composed at test start is always exactly 73
characters (truncated or right-padded), and in the example of the spec it
contains `7/120` and the truncated identifier `TestCp.test_streaming`. -/
theorem statusMessage_width_and_content :
    (∀ testsRun total_tests errors failures skipped : Nat, ∀ testId : String,
      (statusMessage testsRun total_tests errors failures skipped
        testId).length = 73) ∧
    strContains (statusMessage 7 120 2 1 0 "pkg.test_cp.TestCp.test_streaming")
      "7/120" = true ∧
    strContains (statusMessage 7 120 2 1 0 "pkg.test_cp.TestCp.test_streaming")
      "TestCp.test_streaming" = true := by
  refine ⟨?_, by rfl, by rfl⟩
  intro testsRun total_tests errors failures skipped testId
  exact ljustTrunc73_length _

/-- C6: list mode with no positional arguments prints the header with the
full catalog size, then the catalog sorted ascending, and exits 0; the
outcome does not depend on the loader or runner, so no suite is built. -/
theorem runCommand_catalog_listing (env : TestEnv) (g0 : GlobalState)
    (opts : List String) (g1 : GlobalState) (ff : Bool)
    (henv : env.unittestAvailable = true)
    (hpf : processFlags g0 false false opts = (g1, ff, true)) :
    RunCommand env g0 opts [] =
      { result := .exit 0,
        output := ["Found " ++ toString env.testNames.length ++ " test names:",
                   "  " ++ String.intercalate "\n  " (sortStrings env.testNames)],
        globals := g1, ranSuite := false } ∧
    List.Sorted (fun a b => strLE a b = true) (sortStrings env.testNames) ∧
    List.Perm (sortStrings env.testNames) env.testNames ∧
    (∀ (loader2 : List String → Except String TestSuite)
       (runner2 : TestSuite → Bool → Nat → RunResult),
      RunCommand { env with loader := loader2, runner := runner2 } g0 opts [] =
        RunCommand env g0 opts []) := by
  refine ⟨?_, sortStrings_sorted _, sortStrings_perm _, ?_⟩
  · unfold RunCommand
    rw [henv]
    simp [hpf, listingOutput, sortStrings_idem, sortStrings_length]
  · intro loader2 runner2
    unfold RunCommand
    simp [henv, hpf]

/-- Witness for C6: listing the `{mv, cp}` catalog prints `Found 2 test
names:` and the sorted catalog, and exits 0. -/
theorem runCommand_catalog_listing_witness :
    demoEnv.unittestAvailable = true ∧
    processFlags ⟨true, false⟩ false false ["-l"] = (⟨true, false⟩, false, true) ∧
    RunCommand demoEnv ⟨true, false⟩ ["-l"] [] =
      { result := .exit 0,
        output := ["Found " ++ toString demoEnv.testNames.length ++ " test names:",
                   "  " ++ String.intercalate "\n  " (sortStrings demoEnv.testNames)],
        globals := ⟨true, false⟩, ranSuite := false } :=
  ⟨rfl, rfl,
   (runCommand_catalog_listing demoEnv ⟨true, false⟩ ["-l"] ⟨true, false⟩ false
     rfl rfl).1⟩

/-- C1 (amended): list mode with positional arguments builds the suite,
flattens it, and prints a header whose count is the number of leaf entries
of the suite (with multiplicity, no deduplication) followed by the
ascending-sorted leaf identifiers as stripped by
lstrip with the characters of `gslib.tests.test_` — a character-set strip,
not removal of the
exact prefix substring — then exits 0. -/
theorem runCommand_suite_listing (env : TestEnv) (g0 : GlobalState)
    (opts : List String) (a : String) (as : List String)
    (g1 : GlobalState) (ff : Bool) (s : TestSuite)
    (henv : env.unittestAvailable = true)
    (hpf : processFlags g0 false false opts = (g1, ff, true))
    (hload : env.loader (commandsToTest (sortStrings env.testNames) (a :: as))
      = .ok s) :
    RunCommand env g0 opts (a :: as) =
      { result := .exit 0,
        output := ["Found " ++ toString (flattenSuite s).length ++ " test names:",
                   "  " ++ String.intercalate "\n  " (sortStrings (flattenSuite s))],
        globals := g1, ranSuite := false } ∧
    List.Sorted (fun x y => strLE x y = true) (sortStrings (flattenSuite s)) ∧
    List.Perm (sortStrings (flattenSuite s)) (flattenSuite s) := by
  refine ⟨?_, sortStrings_sorted _, sortStrings_perm _⟩
  unfold RunCommand
  rw [henv]
  simp [hpf, commandsToTest_cons_isEmpty, hload, listingOutput]

/-- C1 counterexample: with the duplicated leaf
`gslib.tests.test_ls.TestLs.test_x` the printed listing is `Found 2 test
names:` with `TestLs.test_x` twice — the character-set strip also removed
the `ls.` module segment and nothing was deduplicated — not the
`Found 1 test names:` with `ls.TestLs.test_x` that exact once-only prefix
removal, deduplication and a distinct count would give. -/
theorem runCommand_suite_listing_counterexample :
    (RunCommand demoEnv ⟨true, false⟩ ["-l"] ["ls"]).output =
      ["Found 2 test names:", "  TestLs.test_x\n  TestLs.test_x"] ∧
    (RunCommand demoEnv ⟨true, false⟩ ["-l"] ["ls"]).output ≠
      ["Found 1 test names:", "  ls.TestLs.test_x"] := by
  constructor
  · rfl
  · decide

/-- Witness for C1 (amended): the suite listing for `demoSuite`. -/
theorem runCommand_suite_listing_witness :
    demoEnv.unittestAvailable = true ∧
    processFlags ⟨true, false⟩ false false ["-l"] = (⟨true, false⟩, false, true) ∧
    demoEnv.loader (commandsToTest (sortStrings demoEnv.testNames) ["ls"])
      = .ok demoSuite ∧
    RunCommand demoEnv ⟨true, false⟩ ["-l"] ["ls"] =
      { result := .exit 0,
        output := ["Found " ++ toString (flattenSuite demoSuite).length
                    ++ " test names:",
                   "  " ++ String.intercalate "\n  "
                    (sortStrings (flattenSuite demoSuite))],
        globals := ⟨true, false⟩, ranSuite := false } :=
  ⟨rfl, rfl, rfl,
   (runCommand_suite_listing demoEnv ⟨true, false⟩ ["-l"] "ls" []
     ⟨true, false⟩ false demoSuite rfl rfl rfl).1⟩

/-- C3: a completed run exits 0 exactly when zero failures and zero errors
were recorded, whatever the skip count; both list-mode paths exit 0. -/
theorem runCommand_exit_status :
    (∀ (env : TestEnv) (g0 : GlobalState) (opts args : List String)
       (g1 : GlobalState) (ff : Bool) (s : TestSuite),
      env.unittestAvailable = true →
      processFlags g0 false false opts = (g1, ff, false) →
      (commandsToTest (sortStrings env.testNames) args).isEmpty = false →
      env.loader (commandsToTest (sortStrings env.testNames) args) = .ok s →
      (RunCommand env g0 opts args).result =
        .exit (if (env.runner s ff (if env.logLevelAtMostInfo then 1 else 2)).failures = 0 ∧
                  (env.runner s ff (if env.logLevelAtMostInfo then 1 else 2)).errors = 0
               then 0 else 1)) ∧
    (∀ (env : TestEnv) (g0 : GlobalState) (opts : List String)
       (g1 : GlobalState) (ff : Bool),
      env.unittestAvailable = true →
      processFlags g0 false false opts = (g1, ff, true) →
      (RunCommand env g0 opts []).result = .exit 0) ∧
    (∀ (env : TestEnv) (g0 : GlobalState) (opts : List String)
       (a : String) (as : List String) (g1 : GlobalState) (ff : Bool)
       (s : TestSuite),
      env.unittestAvailable = true →
      processFlags g0 false false opts = (g1, ff, true) →
      env.loader (commandsToTest (sortStrings env.testNames) (a :: as)) = .ok s →
      (RunCommand env g0 opts (a :: as)).result = .exit 0) := by
  refine ⟨?_, ?_, ?_⟩
  · intro env g0 opts args g1 ff s henv hpf hcmds hload
    unfold RunCommand
    rw [henv]
    by_cases hlog : env.logLevelAtMostInfo <;>
      simp [hpf, hcmds, hload, hlog, wasSuccessful]
  · intro env g0 opts g1 ff henv hpf
    unfold RunCommand
    rw [henv]
    simp [hpf]
  · intro env g0 opts a as g1 ff s henv hpf hload
    unfold RunCommand
    rw [henv]
    simp [hpf, commandsToTest_cons_isEmpty, hload]

/-- Witness for C3: one failure (five skips) exits 1; zero failures and
zero errors (three skips) exits 0; both list-mode paths exit 0. -/
theorem runCommand_exit_status_witness :
    (RunCommand demoEnv ⟨true, false⟩ [] []).result = .exit 1 ∧
    (RunCommand demoEnvPass ⟨true, false⟩ [] []).result = .exit 0 ∧
    (RunCommand demoEnv ⟨true, false⟩ ["-l"] []).result = .exit 0 ∧
    (RunCommand demoEnv ⟨true, false⟩ ["-l"] ["ls"]).result = .exit 0 := by
  refine ⟨?_, ?_, ?_, ?_⟩
  · rw [runCommand_exit_status.1 demoEnv ⟨true, false⟩ [] [] ⟨true, false⟩
      false demoSuite rfl rfl rfl rfl]
    rfl
  · rw [runCommand_exit_status.1 demoEnvPass ⟨true, false⟩ [] [] ⟨true, false⟩
      false demoSuite rfl rfl rfl rfl]
    rfl
  · exact runCommand_exit_status.2.1 demoEnv ⟨true, false⟩ ["-l"]
      ⟨true, false⟩ false rfl rfl
  · exact runCommand_exit_status.2.2 demoEnv ⟨true, false⟩ ["-l"] "ls" []
      ⟨true, false⟩ false demoSuite rfl rfl rfl

/-- C4: when the loader fails with an import or attribute error, the
command aborts with a fatal `CommandException` carrying the engine message,
printing nothing and never reaching the runner. -/
theorem runCommand_import_failure (env : TestEnv) (g0 : GlobalState)
    (opts args : List String) (g1 : GlobalState) (ff lt : Bool) (msg : String)
    (henv : env.unittestAvailable = true)
    (hpf : processFlags g0 false false opts = (g1, ff, lt))
    (hshort : (lt && args.isEmpty) = false)
    (hcmds : (commandsToTest (sortStrings env.testNames) args).isEmpty = false)
    (hload : env.loader (commandsToTest (sortStrings env.testNames) args)
      = .error msg) :
    RunCommand env g0 opts args =
      { result := .commandException ("Invalid test argument name: " ++ msg),
        output := [], globals := g1, ranSuite := false } := by
  unfold RunCommand
  rw [henv]
  simp [hpf, hshort, hcmds, hload]

/-- Witness for C4: a failing loader aborts the run with the wrapped
message and `ranSuite = false`. -/
theorem runCommand_import_failure_witness :
    demoEnvFail.loader
      (commandsToTest (sortStrings demoEnvFail.testNames) ["bogus"])
      = .error "No module named test_bogus" ∧
    RunCommand demoEnvFail ⟨true, false⟩ [] ["bogus"] =
      { result := .commandException
          "Invalid test argument name: No module named test_bogus",
        output := [], globals := ⟨true, false⟩, ranSuite := false } :=
  ⟨rfl,
   runCommand_import_failure demoEnvFail ⟨true, false⟩ [] ["bogus"]
     ⟨true, false⟩ false false "No module named test_bogus" rfl rfl rfl rfl rfl⟩

/-- C9 (amended): the local failfast and list flags are built once from the
options, but `-u` is processed by mutating process-wide state: it sets the
module-level flag `gslib.tests.util.RUN_INTEGRATION_TESTS` to False;
without `-u` that flag keeps its prior value. -/
theorem runCommand_unit_flag_effect (env : TestEnv) (g0 : GlobalState)
    (opts args : List String) (henv : env.unittestAvailable = true) :
    ("-u" ∈ opts →
      (RunCommand env g0 opts args).globals.runIntegrationTests = false) ∧
    ("-u" ∉ opts →
      (RunCommand env g0 opts args).globals.runIntegrationTests
        = g0.runIntegrationTests) := by
  have h := runCommand_globals_runIntegrationTests env g0 opts args henv
  rw [processFlags_runIntegrationTests] at h
  constructor
  · intro hm
    rw [h, if_pos hm]
  · intro hm
    rw [h, if_neg hm]

/-- C9 counterexample: starting from `RUN_INTEGRATION_TESTS = True`,
processing `-u` leaves the flag False in the process-wide state — state
outside the local run configuration did change. -/
theorem runCommand_unit_flag_counterexample :
    (GlobalState.mk true false).runIntegrationTests = true ∧
    (RunCommand demoEnv ⟨true, false⟩ ["-u", "-l"] []).globals.runIntegrationTests
      = false := by
  constructor <;> rfl

/-- Witness for C9 (amended): `-u` flips the global flag, `-f` does not. -/
theorem runCommand_unit_flag_effect_witness :
    "-u" ∈ (["-u"] : List String) ∧
    (RunCommand demoEnv ⟨true, false⟩ ["-u"] []).globals.runIntegrationTests
      = false ∧
    "-u" ∉ (["-f"] : List String) ∧
    (RunCommand demoEnv ⟨true, false⟩ ["-f"] []).globals.runIntegrationTests
      = true := by
  refine ⟨by decide,
    (runCommand_unit_flag_effect demoEnv ⟨true, false⟩ ["-u"] [] rfl).1
      (by decide),
    by decide, ?_⟩
  exact (runCommand_unit_flag_effect demoEnv ⟨true, false⟩ ["-f"] [] rfl).2
    (by decide)

/-- C10: with an empty catalog, no positional arguments and list mode off,
no identifier is resolved, no suite is ever built, and the command ends in
an unbound-local use of `suite` instead of a defined exit code. -/
theorem runCommand_empty_catalog_unbound (env : TestEnv) (g0 : GlobalState)
    (opts : List String) (g1 : GlobalState) (ff : Bool)
    (henv : env.unittestAvailable = true)
    (hcat : env.testNames = [])
    (hpf : processFlags g0 false false opts = (g1, ff, false)) :
    commandsToTest (sortStrings env.testNames) [] = [] ∧
    RunCommand env g0 opts [] =
      { result := .unboundLocalError "suite", output := [],
        globals := if env.logLevelAtMostInfo then g1
                   else { g1 with loggingDisabledError := true },
        ranSuite := false } := by
  constructor
  · rw [hcat]
    rfl
  · unfold RunCommand
    rw [henv]
    by_cases hlog : env.logLevelAtMostInfo <;>
      simp [hpf, hcat, hlog, commandsToTest, sortStrings]

/-- Witness for C10: the empty-catalog run ends in the unbound `suite`
error. -/
theorem runCommand_empty_catalog_unbound_witness :
    demoEnvEmpty.testNames = [] ∧
    RunCommand demoEnvEmpty ⟨true, false⟩ [] [] =
      { result := .unboundLocalError "suite", output := [],
        globals := ⟨true, false⟩, ranSuite := false } := by
  refine ⟨rfl, ?_⟩
  have h := (runCommand_empty_catalog_unbound demoEnvEmpty ⟨true, false⟩ []
    ⟨true, false⟩ false rfl rfl rfl).2
  simpa using h


end GsutilTest
